import Mathlib

/-!
# update-checker: a shallow embedding of `main.go`

The program loads `config.yaml`, asks the hosting API for the tip commit of
`main`, compares it with the stored commit identifier and, when they differ,
rewrites `config.yaml` and calls the merge endpoint of the server.

The embedding passes the package-level variable `config`, the contents of
`config.yaml` and the trace of outward calls explicitly.  Everything outside
the program (file system, YAML and JSON libraries, HTTP client) is a field of
`World`.
-/

namespace UpdateChecker

/-! ## Data model -/

/-- Go struct `Config` (main.go, lines 14-21). -/
structure Config where
  GitHubAPIURL : String
  RepoOwner : String
  RepoName : String
  GitHubToken : String
  ServerURL : String
  LastCommitSHA : String
deriving DecidableEq, Repr

/-- Zero value of `Config`, the value of `var config Config` at process start. -/
def Config.zero : Config := ⟨"", "", "", "", "", ""⟩

/-- The part of a Go `*http.Request` the program sets: method, URL and header. -/
structure Request where
  method : String
  url : String
  header : List (String × String)
deriving DecidableEq, Repr

/-- The part of a Go `*http.Response` the program reads. `Body` is the full
text a reader of `resp.Body` obtains. -/
structure Response where
  StatusCode : Nat
  Status : String
  Body : String
deriving DecidableEq, Repr

/-- A JSON value as `encoding/json` sees it. -/
inductive JSON where
  | null : JSON
  | bool (b : Bool) : JSON
  | number (lit : String) : JSON
  | string (s : String) : JSON
  | array (elems : List JSON) : JSON
  | object (members : List (String × JSON)) : JSON

/-- Outward calls of a run, in program order. A call is recorded when it is
made, whether or not it then succeeds. -/
inductive Event where
  /-- Call `os.Create(path)` (main.go, line 64). -/
  | osCreate (path : String) : Event
  /-- Call `encoder.Encode(&config)` on the created file (main.go, line 71). -/
  | yamlEncode (c : Config) : Event
  /-- Call `http.DefaultClient.Do(req)` (main.go, line 84). -/
  | clientDo (req : Request) : Event
  /-- Call `http.Get(url)` (main.go, line 113). -/
  | httpGet (url : String) : Event
  /-- A line printed by `log.Println` or `log.Printf`. -/
  | logPrint (msg : String) : Event
  /-- A line printed by `log.Fatalf`, which then exits with status 1. -/
  | logFatal (msg : String) : Event
deriving DecidableEq, Repr

/-- Everything outside the program that one run interacts with. -/
structure World where
  /-- Error text of `os.Open` when `config.yaml` cannot be opened. -/
  openErr : String
  /-- Library `yaml.v2`: `Decoder.Decode` of a file text into a zero `Config`. -/
  yamlDecode : String → Except String Config
  /-- Error of `os.Create("config.yaml")`, if it fails. -/
  createErr : Option String
  /-- Library `yaml.v2`: `Encoder.Encode` writing to the created file. On
  success the text now in the file; on failure the error text and whatever the
  truncated file is left holding. -/
  yamlEncode : Config → Except (String × String) String
  /-- Error of `http.NewRequest("GET", url, nil)`, if it rejects the URL. -/
  newRequestErr : String → Option String
  /-- Outcome of `http.DefaultClient.Do(req)`. -/
  clientDo : Request → Except String Response
  /-- Outcome of `http.Get(url)`. -/
  httpGet : String → Except String Response
  /-- Library `encoding/json`: the first JSON value of a body text, or the
  syntax error. -/
  jsonParse : String → Except String JSON
  /-- Library `strconv`: `ParseFloat(lit, 64)` reports a range error on the
  number literal, which is how `encoding/json` turns a number into the
  `float64` it stores in an `interface{}`. -/
  parseFloatErr : String → Bool

/-- State threaded through a run: the package-level `config`, the contents of
`config.yaml` (`none` when it cannot be opened) and the calls made so far. -/
structure State where
  config : Config
  file : Option String
  trace : List Event
deriving DecidableEq, Repr

/-- How a process ended. -/
structure Outcome where
  exitCode : Nat
  trace : List Event
  file : Option String
deriving DecidableEq, Repr

/-- State at process start. -/
def State.init (file : Option String) : State := ⟨Config.zero, file, []⟩

/-- Append one call to the trace. -/
def State.emit (st : State) (e : Event) : State := { st with trace := st.trace ++ [e] }

/-- Go `log.Fatalf`: print the line, then `os.Exit(1)`. -/
def logFatalf (msg : String) (st : State) : Outcome :=
  ⟨1, st.trace ++ [Event.logFatal msg], st.file⟩

/-! ## JSON decoding into `map[string]interface{}` -/

/-- Message of the `*json.UnmarshalTypeError` raised when a JSON value of the
given kind is decoded into `map[string]interface{}`. -/
def unmarshalTypeError (kind : String) : String :=
  "json: cannot unmarshal " ++ kind ++ " into Go value of type map[string]interface \x7b\x7d"

/-- Message of the `*json.UnmarshalTypeError` raised when a number literal
stored into an `interface{}` does not fit a `float64`. -/
def numberRangeError (lit : String) : String :=
  "json: cannot unmarshal number " ++ lit ++ " into Go value of type float64"

mutual
/-- First number literal of a value, in document order, that does not fit a
`float64`. The decoder visits every value stored into an `interface{}` and
keeps the first error it meets. -/
def JSON.rangeError (bad : String → Bool) : JSON → Option String
  | JSON.number lit => if bad lit then some lit else none
  | JSON.array elems => rangeErrorList bad elems
  | JSON.object members => rangeErrorMembers bad members
  | _ => none
/-- First number literal out of range among the elements of an array. -/
def rangeErrorList (bad : String → Bool) : List JSON → Option String
  | [] => none
  | x :: xs =>
    match x.rangeError bad with
    | some lit => some lit
    | none => rangeErrorList bad xs
/-- First number literal out of range among the members of an object. -/
def rangeErrorMembers (bad : String → Bool) : List (String × JSON) → Option String
  | [] => none
  | (_, v) :: ms =>
    match v.rangeError bad with
    | some lit => some lit
    | none => rangeErrorMembers bad ms
end

/-- Go `Decode(&result)` with `result : map[string]interface{}` applied to a
parsed value: an object fills the map, and the call returns the first range
error met among the numbers of its members, if any; `null` leaves the nil
map; every other kind is a type error, raised without decoding the value. -/
def decodeMap (bad : String → Bool) : JSON → Except String (List (String × JSON))
  | JSON.object members =>
    match rangeErrorMembers bad members with
    | some lit => Except.error (numberRangeError lit)
    | none => Except.ok members
  | JSON.null => Except.ok []
  | JSON.bool _ => Except.error (unmarshalTypeError "bool")
  | JSON.number _ => Except.error (unmarshalTypeError "number")
  | JSON.string _ => Except.error (unmarshalTypeError "string")
  | JSON.array _ => Except.error (unmarshalTypeError "array")

/-- Go map index `m[k]` on a map filled member by member: a later duplicate
key overwrites an earlier one; `none` is the nil interface. -/
def mapIndex (m : List (String × JSON)) (k : String) : Option JSON :=
  m.reverse.lookup k

/-- Go type assertion `v.(map[string]interface{})`. -/
def asMap : Option JSON → Option (List (String × JSON))
  | some (JSON.object members) => some members
  | _ => none

/-- Go type assertion `v.(string)`. -/
def asString : Option JSON → Option String
  | some (JSON.string s) => some s
  | _ => none

/-! ## The program -/

/-- Go `loadConfig` (main.go, lines 50-61). `Except.error` is the outcome of
the process when `log.Fatalf` ends it. -/
def loadConfig (w : World) (st : State) : Except Outcome State :=
  match st.file with
  | none => Except.error (logFatalf ("Failed to load config.yaml: " ++ w.openErr) st)
  | some text =>
    match w.yamlDecode text with
    | Except.error err => Except.error (logFatalf ("Failed to parse config.yaml: " ++ err) st)
    | Except.ok c => Except.ok { st with config := c }

/-- Go `saveConfig` (main.go, lines 63-74). -/
def saveConfig (w : World) (st : State) : Except Outcome State :=
  let st := st.emit (Event.osCreate "config.yaml")
  match w.createErr with
  | some err => Except.error (logFatalf ("Failed to save config.yaml: " ++ err) st)
  | none =>
    let st := { st with file := some "" }
    let st := st.emit (Event.yamlEncode st.config)
    match w.yamlEncode st.config with
    | Except.error (err, left) =>
      Except.error (logFatalf ("Failed to encode config.yaml: " ++ err) { st with file := some left })
    | Except.ok text => Except.ok { st with file := some text }

/-- URL built at main.go, line 77. -/
def branchURL (c : Config) : String :=
  c.GitHubAPIURL ++ "/repos/" ++ c.RepoOwner ++ "/" ++ c.RepoName ++ "/branches/main"

/-- Request built at main.go, lines 78-82. -/
def branchRequest (c : Config) : Request :=
  ⟨"GET", branchURL c, [("Authorization", "token " ++ c.GitHubToken)]⟩

/-- Go `getLatestMainCommitSHA` (main.go, lines 76-110). -/
def getLatestMainCommitSHA (w : World) (st : State) : Except String String × State :=
  let url := branchURL st.config
  match w.newRequestErr url with
  | some err => (Except.error err, st)
  | none =>
    let req := branchRequest st.config
    let st := st.emit (Event.clientDo req)
    match w.clientDo req with
    | Except.error err => (Except.error err, st)
    | Except.ok resp =>
      if resp.StatusCode ≠ 200 then
        (Except.error ("GitHub API responded with status: " ++ resp.Status), st)
      else
        match w.jsonParse resp.Body with
        | Except.error err => (Except.error err, st)
        | Except.ok j =>
          match decodeMap w.parseFloatErr j with
          | Except.error err => (Except.error err, st)
          | Except.ok result =>
            match asMap (mapIndex result "commit") with
            | none => (Except.error "unexpected JSON structure: 'commit' key not found", st)
            | some commitData =>
              match asString (mapIndex commitData "sha") with
              | none => (Except.error "unexpected JSON structure: 'sha' key not found", st)
              | some sha => (Except.ok sha, st)

/-- URL built at main.go, line 113. -/
def mergeURL (c : Config) : String := c.ServerURL ++ "/merge-main"

/-- Request that the library call `http.Get(url)` builds: a GET of the URL
with an empty header. -/
def httpGetRequest (url : String) : Request := ⟨"GET", url, []⟩

/-- Go `triggerMergeOnServer` (main.go, lines 112-125); `none` is the nil error. -/
def triggerMergeOnServer (w : World) (st : State) : Option String × State :=
  let url := mergeURL st.config
  let st := st.emit (Event.httpGet url)
  match w.httpGet url with
  | Except.error err => (some ("failed to trigger merge on server: " ++ err), st)
  | Except.ok resp =>
    if resp.StatusCode ≠ 200 then
      (some ("server responded with status " ++ toString resp.StatusCode ++ ": " ++ resp.Body), st)
    else
      (none, st)

/-- Go `main` (main.go, lines 25-48), started with the given contents of
`config.yaml`. -/
def main (w : World) (file : Option String) : Outcome :=
  match loadConfig w (State.init file) with
  | Except.error out => out
  | Except.ok st =>
    match getLatestMainCommitSHA w st with
    | (Except.error err, st) => logFatalf ("Failed to get latest commit SHA: " ++ err) st
    | (Except.ok newCommitSHA, st) =>
      if newCommitSHA = st.config.LastCommitSHA then
        let st := st.emit (Event.logPrint "No updates in 'main' branch.")
        ⟨0, st.trace, st.file⟩
      else
        let st := st.emit
          (Event.logPrint ("Detected new commit: " ++ newCommitSHA ++ ". Initiating merge..."))
        let st := { st with config := { st.config with LastCommitSHA := newCommitSHA } }
        match saveConfig w st with
        | Except.error out => out
        | Except.ok st =>
          match triggerMergeOnServer w st with
          | (some err, st) => logFatalf ("Failed to initiate merge: " ++ err) st
          | (none, st) =>
            let st := st.emit (Event.logPrint "Merge request successfully initiated.")
            ⟨0, st.trace, st.file⟩

/-! ## Vocabulary of the properties -/

/-- The text `sub` occurs in `msg`. -/
def containsText (msg sub : String) : Prop := sub.data <:+: msg.data

instance (msg sub : String) : Decidable (containsText msg sub) := by
  unfold containsText; infer_instance

/-- The event is a write to the config store: `config.yaml` is created
(truncated) or encoded into. -/
def Event.isConfigWrite : Event → Bool
  | Event.osCreate _ => true
  | Event.yamlEncode _ => true
  | _ => false

/-- The event is a request to the merge endpoint. -/
def Event.isMergeRequest : Event → Bool
  | Event.httpGet _ => true
  | _ => false

/-- The event is a request to the branch-info API. -/
def Event.isBranchRequest : Event → Bool
  | Event.clientDo _ => true
  | _ => false

/-- Value of a header field of a request, if set. -/
def Request.headerGet (r : Request) (key : String) : Option String := r.header.lookup key

/-- Sample configuration with the given stored commit identifier. -/
def exConfig (sha : String) : Config :=
  ⟨"https://api.example.org", "octo", "demo", "s3cret", "http://deploy.example.org", sha⟩

/-- Plain-scalar rendering of a configuration as a YAML document. -/
def exYaml (c : Config) : String :=
  "github_api_url: " ++ c.GitHubAPIURL ++ "\nrepo_owner: " ++ c.RepoOwner ++
  "\nrepo_name: " ++ c.RepoName ++ "\ngithub_token: " ++ c.GitHubToken ++
  "\nserver_url: " ++ c.ServerURL ++ "\ncommit_sha: " ++ c.LastCommitSHA ++ "\n"

/-- Branch-info body announcing commit `def456`. -/
def exBody : String := "\x7b\"commit\":\x7b\"sha\":\"def456\"\x7d\x7d"

/-- Branch-info body with two `commit` members, the later one announcing
commit `def456`. -/
def exDupBody : String :=
  "\x7b\"commit\":\x7b\"sha\":\"abc123\"\x7d,\"commit\":\x7b\"sha\":\"def456\"\x7d\x7d"

/-- Branch-info body announcing commit `def456` next to a number that does not
fit a `float64`. -/
def exBigBody : String :=
  "\x7b\"commit\":\x7b\"sha\":\"def456\"\x7d,\"size\":1e999\x7d"

/-- A sample world: the YAML decoder knows the two sample documents, the JSON
parser knows the three sample bodies, `[]` and `null`, the literal `1e999` is
out of the `float64` range, and the two servers answer with the given
responses. -/
def exWorld (branchResp mergeResp : Response) (createErr : Option String) : World where
  openErr := "open config.yaml: no such file or directory"
  yamlDecode := fun text =>
    if text = exYaml (exConfig "abc123") then Except.ok (exConfig "abc123")
    else if text = exYaml (exConfig "def456") then Except.ok (exConfig "def456")
    else Except.error "yaml: unmarshal errors"
  createErr := createErr
  yamlEncode := fun c => Except.ok (exYaml c)
  newRequestErr := fun _ => none
  clientDo := fun _ => Except.ok branchResp
  httpGet := fun _ => Except.ok mergeResp
  jsonParse := fun body =>
    if body = exBody then
      Except.ok (JSON.object [("commit", JSON.object [("sha", JSON.string "def456")])])
    else if body = exDupBody then
      Except.ok (JSON.object [("commit", JSON.object [("sha", JSON.string "abc123")]),
        ("commit", JSON.object [("sha", JSON.string "def456")])])
    else if body = exBigBody then
      Except.ok (JSON.object [("commit", JSON.object [("sha", JSON.string "def456")]),
        ("size", JSON.number "1e999")])
    else if body = "[]" then Except.ok (JSON.array [])
    else if body = "null" then Except.ok JSON.null
    else Except.error "invalid character"
  parseFloatErr := fun lit => lit == "1e999"

/-- A 200 response with the given body. -/
def ok200 (body : String) : Response := ⟨200, "200 OK", body⟩

/-! ## Stage lemmas -/

/-- A successful `loadConfig` at process start keeps the file and the empty
trace and stores the decoded record. -/
theorem loadConfig_ok {w : World} {file : Option String} {st : State}
    (h : loadConfig w (State.init file) = Except.ok st) :
    ∃ text, file = some text ∧ w.yamlDecode text = Except.ok st.config ∧
      st = ⟨st.config, some text, []⟩ := by
  unfold loadConfig State.init at h
  cases file with
  | none => simp at h
  | some text =>
    simp only at h
    cases hd : w.yamlDecode text with
    | error e => rw [hd] at h; simp at h
    | ok c =>
      rw [hd] at h
      simp only [Except.ok.injEq] at h
      subst h
      exact ⟨text, rfl, hd, rfl⟩

/-- A failing `loadConfig` at process start has logged one fatal line and
nothing else. -/
theorem loadConfig_error {w : World} {file : Option String} {out : Outcome}
    (h : loadConfig w (State.init file) = Except.error out) :
    ∃ msg, out = ⟨1, [Event.logFatal msg], file⟩ := by
  unfold loadConfig State.init at h
  cases file with
  | none =>
    simp only [logFatalf, Except.error.injEq] at h
    exact ⟨_, by rw [← h]; rfl⟩
  | some text =>
    simp only at h
    cases hd : w.yamlDecode text with
    | error e =>
      rw [hd] at h
      simp only [logFatalf, Except.error.injEq] at h
      exact ⟨_, by rw [← h]; rfl⟩
    | ok c => rw [hd] at h; simp at h

/-- The fetcher leaves the state alone or records its one request. -/
theorem fetch_state (w : World) (st : State) :
    (getLatestMainCommitSHA w st).2 = st ∨
      (getLatestMainCommitSHA w st).2 = st.emit (Event.clientDo (branchRequest st.config)) := by
  unfold getLatestMainCommitSHA
  simp only
  split
  · left; rfl
  · right
    split
    · rfl
    · split
      · rfl
      · split
        · rfl
        · split
          · rfl
          · split
            · rfl
            · split <;> rfl

/-- A successful fetch has recorded its one request. -/
theorem fetch_ok_state {w : World} {st : State} {s : String}
    (h : (getLatestMainCommitSHA w st).1 = Except.ok s) :
    getLatestMainCommitSHA w st =
      (Except.ok s, st.emit (Event.clientDo (branchRequest st.config))) := by
  unfold getLatestMainCommitSHA at h ⊢
  simp only at h ⊢
  split at h
  · simp at h
  · split at h
    · simp at h
    · split at h
      · simp at h
      · split at h
        · simp at h
        · split at h
          · simp at h
          · split at h
            · simp at h
            · split at h
              · simp at h
              · simp_all

/-- The run when the config fails to load. -/
theorem main_load_error {w : World} {file : Option String} {out : Outcome}
    (h : loadConfig w (State.init file) = Except.error out) : main w file = out := by
  unfold main; rw [h]

/-- The run when the fetch fails. -/
theorem main_fetch_error {w : World} {file : Option String} {st : State} {err : String}
    (hload : loadConfig w (State.init file) = Except.ok st)
    (hfetch : (getLatestMainCommitSHA w st).1 = Except.error err) :
    main w file = ⟨1, (getLatestMainCommitSHA w st).2.trace ++
      [Event.logFatal ("Failed to get latest commit SHA: " ++ err)], file⟩ ∧
    ((getLatestMainCommitSHA w st).2.trace = [] ∨
      (getLatestMainCommitSHA w st).2.trace = [Event.clientDo (branchRequest st.config)]) := by
  obtain ⟨text, hfile, -, hst⟩ := loadConfig_ok hload
  have hfile2 : (getLatestMainCommitSHA w st).2.file = file := by
    have hsf : st.file = file := by rw [hst, hfile]
    rcases fetch_state w st with h | h
    · rw [h, hsf]
    · rw [h]; exact hsf
  constructor
  · unfold main
    rw [hload]
    simp only
    generalize hg : getLatestMainCommitSHA w st = g at hfetch hfile2
    obtain ⟨r, st1⟩ := g
    simp only at hfetch hfile2
    subst hfetch
    simp only [logFatalf, hfile2]
  · rcases fetch_state w st with h | h <;> rw [h, hst]
    · left; rfl
    · right; rfl

/-- The run after a successful load and fetch, flattened to the answers of the
world. -/
theorem main_fetched {w : World} {file : Option String} {st : State} {s : String}
    (hload : loadConfig w (State.init file) = Except.ok st)
    (hfetch : (getLatestMainCommitSHA w st).1 = Except.ok s) :
    main w file =
      if s = st.config.LastCommitSHA then
        ⟨0, [Event.clientDo (branchRequest st.config),
             Event.logPrint "No updates in 'main' branch."], file⟩
      else
        match w.createErr with
        | some err =>
          ⟨1, [Event.clientDo (branchRequest st.config),
               Event.logPrint ("Detected new commit: " ++ s ++ ". Initiating merge..."),
               Event.osCreate "config.yaml",
               Event.logFatal ("Failed to save config.yaml: " ++ err)], file⟩
        | none =>
          match w.yamlEncode { st.config with LastCommitSHA := s } with
          | Except.error (err, left) =>
            ⟨1, [Event.clientDo (branchRequest st.config),
                 Event.logPrint ("Detected new commit: " ++ s ++ ". Initiating merge..."),
                 Event.osCreate "config.yaml",
                 Event.yamlEncode { st.config with LastCommitSHA := s },
                 Event.logFatal ("Failed to encode config.yaml: " ++ err)], some left⟩
          | Except.ok text =>
            match (triggerMergeOnServer w
              ⟨{ st.config with LastCommitSHA := s }, some text,
                [Event.clientDo (branchRequest st.config),
                 Event.logPrint ("Detected new commit: " ++ s ++ ". Initiating merge..."),
                 Event.osCreate "config.yaml",
                 Event.yamlEncode { st.config with LastCommitSHA := s }]⟩).1 with
            | some err =>
              ⟨1, [Event.clientDo (branchRequest st.config),
                   Event.logPrint ("Detected new commit: " ++ s ++ ". Initiating merge..."),
                   Event.osCreate "config.yaml",
                   Event.yamlEncode { st.config with LastCommitSHA := s },
                   Event.httpGet (st.config.ServerURL ++ "/merge-main"),
                   Event.logFatal ("Failed to initiate merge: " ++ err)], some text⟩
            | none =>
              ⟨0, [Event.clientDo (branchRequest st.config),
                   Event.logPrint ("Detected new commit: " ++ s ++ ". Initiating merge..."),
                   Event.osCreate "config.yaml",
                   Event.yamlEncode { st.config with LastCommitSHA := s },
                   Event.httpGet (st.config.ServerURL ++ "/merge-main"),
                   Event.logPrint "Merge request successfully initiated."], some text⟩ := by
  obtain ⟨text, hfile, -, hst⟩ := loadConfig_ok hload
  have hf := fetch_ok_state hfetch
  unfold main
  rw [hload]
  simp only
  rw [hf]
  simp only
  generalize st.config = c at hst ⊢
  subst hst hfile
  by_cases heq : s = c.LastCommitSHA
  · simp [heq, State.emit]
  · simp only [State.emit, heq, if_false, List.nil_append, List.cons_append]
    unfold saveConfig
    simp only [State.emit]
    cases hc : w.createErr with
    | some err => simp [logFatalf]
    | none =>
      simp only
      cases he : w.yamlEncode ⟨c.GitHubAPIURL, c.RepoOwner, c.RepoName, c.GitHubToken, c.ServerURL, s⟩ with
      | error e => obtain ⟨err, left⟩ := e; simp [logFatalf]
      | ok text =>
        simp only
        unfold triggerMergeOnServer
        simp only [State.emit, mergeURL]
        cases hg : w.httpGet (c.ServerURL ++ "/merge-main") with
        | error err => simp [logFatalf]
        | ok resp =>
          by_cases h200 : resp.StatusCode = 200
          · simp [h200, State.emit]
          · simp [h200, logFatalf]

/-- The answer of the merge trigger depends on the state through `config` only. -/
theorem trigger_result_config (w : World) {st1 st2 : State} (h : st1.config = st2.config) :
    (triggerMergeOnServer w st1).1 = (triggerMergeOnServer w st2).1 := by
  unfold triggerMergeOnServer
  simp only [h]
  cases w.httpGet (mergeURL st2.config) with
  | error err => rfl
  | ok resp => by_cases h200 : resp.StatusCode = 200 <;> simp [h200]

/-- The merge trigger records exactly its one request. -/
theorem trigger_state (w : World) (st : State) :
    (triggerMergeOnServer w st).2 = st.emit (Event.httpGet (st.config.ServerURL ++ "/merge-main")) := by
  unfold triggerMergeOnServer
  simp only [mergeURL]
  cases w.httpGet (st.config.ServerURL ++ "/merge-main") with
  | error err => rfl
  | ok resp => by_cases h200 : resp.StatusCode = 200 <;> simp [h200]

/-- The answer of the merge trigger on a delivered response. -/
theorem trigger_result {w : World} {st : State} {resp : Response}
    (h : w.httpGet (st.config.ServerURL ++ "/merge-main") = Except.ok resp) :
    (triggerMergeOnServer w st).1 =
      if resp.StatusCode ≠ 200 then
        some ("server responded with status " ++ toString resp.StatusCode ++ ": " ++ resp.Body)
      else none := by
  unfold triggerMergeOnServer
  simp only [mergeURL, h]
  by_cases h200 : resp.StatusCode = 200 <;> simp [h200]

/-- A suffix of a text occurs in it. -/
theorem containsText_append (pre sub : String) : containsText (pre ++ sub) sub := by
  unfold containsText
  rw [String.data_append]
  exact (List.suffix_append pre.data sub.data).isInfix

/-- A successful `saveConfig` created the file and encoded the record into it. -/
theorem saveConfig_ok {w : World} {st1 st2 : State}
    (h : saveConfig w st1 = Except.ok st2) :
    w.createErr = none ∧ ∃ text, w.yamlEncode st1.config = Except.ok text ∧
      st2 = ⟨st1.config, some text,
        st1.trace ++ [Event.osCreate "config.yaml"] ++ [Event.yamlEncode st1.config]⟩ := by
  unfold saveConfig at h
  simp only [State.emit] at h
  cases hc : w.createErr with
  | some err => rw [hc] at h; simp at h
  | none =>
    rw [hc] at h
    simp only at h
    cases he : w.yamlEncode st1.config with
    | error e => obtain ⟨err, left⟩ := e; rw [he] at h; simp at h
    | ok text =>
      rw [he] at h
      simp only [Except.ok.injEq] at h
      exact ⟨rfl, text, rfl, h.symm⟩

/-- A failing `saveConfig` failed to create the file or to encode into it. -/
theorem saveConfig_error {w : World} {st1 : State} {out : Outcome}
    (h : saveConfig w st1 = Except.error out) :
    (∃ err, w.createErr = some err) ∨
      (w.createErr = none ∧ ∃ err left, w.yamlEncode st1.config = Except.error (err, left)) := by
  unfold saveConfig at h
  simp only [State.emit] at h
  cases hc : w.createErr with
  | some err => exact Or.inl ⟨err, rfl⟩
  | none =>
    rw [hc] at h
    simp only at h
    cases he : w.yamlEncode st1.config with
    | error e => obtain ⟨err, left⟩ := e; exact Or.inr ⟨rfl, err, left, rfl⟩
    | ok text => rw [he] at h; simp at h

/-- When the file is created and the record encoded, `saveConfig` succeeds. -/
theorem saveConfig_ok_of {w : World} {st1 : State} {text : String}
    (hc : w.createErr = none) (he : w.yamlEncode st1.config = Except.ok text) :
    saveConfig w st1 = Except.ok ⟨st1.config, some text,
      st1.trace ++ [Event.osCreate "config.yaml"] ++ [Event.yamlEncode st1.config]⟩ := by
  unfold saveConfig
  simp only [State.emit, hc, he]

/-- Once the request is built, the fetcher records exactly that request. -/
theorem fetch_sent {w : World} {st : State}
    (hnr : w.newRequestErr (branchURL st.config) = none) :
    (getLatestMainCommitSHA w st).2 = st.emit (Event.clientDo (branchRequest st.config)) := by
  unfold getLatestMainCommitSHA
  simp only [hnr]
  split
  · rfl
  · split
    · rfl
    · split
      · rfl
      · split
        · rfl
        · split
          · rfl
          · split <;> rfl

/-- C1: when the fetched commit identifier equals the stored one, the run
makes the one branch-info request, prints one log line and exits with
status 0; the file is left as it was, and the trace holds no write to the
config store and no request to the merge endpoint. -/
theorem C1_unchanged_run_is_read_only (w : World) (file : Option String) (st : State)
    (s : String)
    (hload : loadConfig w (State.init file) = Except.ok st)
    (hfetch : (getLatestMainCommitSHA w st).1 = Except.ok s)
    (heq : s = st.config.LastCommitSHA) :
    main w file =
      ⟨0, [Event.clientDo (branchRequest st.config),
           Event.logPrint "No updates in 'main' branch."], file⟩ ∧
    (∀ e ∈ (main w file).trace, e.isConfigWrite = false ∧ e.isMergeRequest = false) := by
  have h := main_fetched hload hfetch
  rw [if_pos heq] at h
  rw [h]
  refine ⟨rfl, ?_⟩
  intro e he
  simp only [List.mem_cons, List.mem_singleton, List.not_mem_nil, or_false] at he
  rcases he with rfl | rfl <;> exact ⟨rfl, rfl⟩

/-- C1 at a sample run: stored and fetched identifier are both `def456`. -/
theorem C1_unchanged_run_is_read_only_witness :
    main (exWorld (ok200 exBody) (ok200 "") none) (some (exYaml (exConfig "def456"))) =
      ⟨0, [Event.clientDo (branchRequest (exConfig "def456")),
           Event.logPrint "No updates in 'main' branch."],
        some (exYaml (exConfig "def456"))⟩ :=
  (C1_unchanged_run_is_read_only (exWorld (ok200 exBody) (ok200 "") none)
    (some (exYaml (exConfig "def456")))
    ⟨exConfig "def456", some (exYaml (exConfig "def456")), []⟩ "def456"
    (by rfl) (by rfl) (by rfl)).1

/-- C2: when the fetched commit identifier `s` differs from the stored one and
the config write succeeds, the run leaves in the file the encoding of the
record that has `s` as commit identifier and the five other fields of the
loaded record; its writes to the config store are the creation of the file and
the encoding of that record, and it sends exactly one request to the merge
endpoint, a GET of the stored server URL followed by `/merge-main`. -/
theorem C2_changed_run_rewrites_store_and_triggers_once (w : World) (file : Option String)
    (st : State) (s text : String)
    (hload : loadConfig w (State.init file) = Except.ok st)
    (hfetch : (getLatestMainCommitSHA w st).1 = Except.ok s)
    (hne : s ≠ st.config.LastCommitSHA)
    (hcreate : w.createErr = none)
    (henc : w.yamlEncode ⟨st.config.GitHubAPIURL, st.config.RepoOwner, st.config.RepoName,
      st.config.GitHubToken, st.config.ServerURL, s⟩ = Except.ok text) :
    (main w file).file = some text ∧
    (main w file).trace.filter Event.isConfigWrite =
      [Event.osCreate "config.yaml",
       Event.yamlEncode ⟨st.config.GitHubAPIURL, st.config.RepoOwner, st.config.RepoName,
         st.config.GitHubToken, st.config.ServerURL, s⟩] ∧
    (main w file).trace.filter Event.isMergeRequest =
      [Event.httpGet (st.config.ServerURL ++ "/merge-main")] ∧
    (httpGetRequest (st.config.ServerURL ++ "/merge-main")).method = "GET" ∧
    ∃ last, (main w file).trace =
      [Event.clientDo (branchRequest st.config),
       Event.logPrint ("Detected new commit: " ++ s ++ ". Initiating merge..."),
       Event.osCreate "config.yaml",
       Event.yamlEncode ⟨st.config.GitHubAPIURL, st.config.RepoOwner, st.config.RepoName,
         st.config.GitHubToken, st.config.ServerURL, s⟩,
       Event.httpGet (st.config.ServerURL ++ "/merge-main"),
       last] ∧ last.isConfigWrite = false ∧ last.isMergeRequest = false := by
  have h := main_fetched hload hfetch
  rw [if_neg hne] at h
  simp only [hcreate, henc] at h
  rw [h]
  split
  · refine ⟨rfl, rfl, rfl, rfl, _, rfl, rfl, rfl⟩
  · refine ⟨rfl, rfl, rfl, rfl, _, rfl, rfl, rfl⟩

/-- C2 at the sample run of the specification: stored `abc123`, fetched
`def456`, answer 200 from the merge endpoint. -/
theorem C2_changed_run_rewrites_store_and_triggers_once_witness :
    (main (exWorld (ok200 exBody) (ok200 "") none) (some (exYaml (exConfig "abc123")))).file =
      some (exYaml (exConfig "def456")) ∧
    (main (exWorld (ok200 exBody) (ok200 "") none)
      (some (exYaml (exConfig "abc123")))).trace.filter Event.isMergeRequest =
      [Event.httpGet "http://deploy.example.org/merge-main"] :=
  have h := C2_changed_run_rewrites_store_and_triggers_once
    (exWorld (ok200 exBody) (ok200 "") none) (some (exYaml (exConfig "abc123")))
    ⟨exConfig "abc123", some (exYaml (exConfig "abc123")), []⟩ "def456"
    (exYaml (exConfig "def456")) (by rfl) (by rfl) (by decide) (by rfl) (by rfl)
  ⟨h.1, h.2.2.1⟩

/-! ## Failing requests -/

/-- C3: in a run that fetched an identifier different from the stored one,
sent its merge request and got an answer with a status other than 200, the
process ends with status 1 and a fatal line carrying the HTTP error, whose
message contains the body of the answer; the config write succeeded and stands
in the trace before the merge request, and the file still holds the encoding of
the record with the new identifier. -/
theorem C3_merge_http_error_comes_after_the_write (w : World) (file : Option String)
    (st : State) (s : String) (resp : Response)
    (hload : loadConfig w (State.init file) = Except.ok st)
    (hfetch : (getLatestMainCommitSHA w st).1 = Except.ok s)
    (hne : s ≠ st.config.LastCommitSHA)
    (hsent : ∃ e ∈ (main w file).trace, e.isMergeRequest = true)
    (hresp : w.httpGet (st.config.ServerURL ++ "/merge-main") = Except.ok resp)
    (hcode : resp.StatusCode ≠ 200) :
    ∃ text,
      w.yamlEncode ⟨st.config.GitHubAPIURL, st.config.RepoOwner, st.config.RepoName,
        st.config.GitHubToken, st.config.ServerURL, s⟩ = Except.ok text ∧
      main w file =
        ⟨1, [Event.clientDo (branchRequest st.config),
             Event.logPrint ("Detected new commit: " ++ s ++ ". Initiating merge..."),
             Event.osCreate "config.yaml",
             Event.yamlEncode ⟨st.config.GitHubAPIURL, st.config.RepoOwner, st.config.RepoName,
               st.config.GitHubToken, st.config.ServerURL, s⟩,
             Event.httpGet (st.config.ServerURL ++ "/merge-main"),
             Event.logFatal ("Failed to initiate merge: " ++
               ("server responded with status " ++ toString resp.StatusCode ++ ": " ++
                 resp.Body))],
          some text⟩ ∧
      containsText
        ("server responded with status " ++ toString resp.StatusCode ++ ": " ++ resp.Body)
        resp.Body := by
  have h := main_fetched hload hfetch
  rw [if_neg hne] at h
  obtain ⟨e, he, hm⟩ := hsent
  cases hc : w.createErr with
  | some err =>
    rw [hc] at h
    simp only at h
    rw [h] at he
    simp only [List.mem_cons, List.mem_singleton, List.not_mem_nil, or_false] at he
    rcases he with rfl | rfl | rfl | rfl <;> simp [Event.isMergeRequest] at hm
  | none =>
    rw [hc] at h
    simp only at h
    cases hy : w.yamlEncode ⟨st.config.GitHubAPIURL, st.config.RepoOwner, st.config.RepoName,
        st.config.GitHubToken, st.config.ServerURL, s⟩ with
    | error el =>
      obtain ⟨err, left⟩ := el
      rw [hy] at h
      simp only at h
      rw [h] at he
      simp only [List.mem_cons, List.mem_singleton, List.not_mem_nil, or_false] at he
      rcases he with rfl | rfl | rfl | rfl | rfl <;> simp [Event.isMergeRequest] at hm
    | ok text =>
      rw [hy] at h
      simp only at h
      have ht := @trigger_result w
        ⟨⟨st.config.GitHubAPIURL, st.config.RepoOwner, st.config.RepoName,
            st.config.GitHubToken, st.config.ServerURL, s⟩, some text,
          [Event.clientDo (branchRequest st.config),
           Event.logPrint ("Detected new commit: " ++ s ++ ". Initiating merge..."),
           Event.osCreate "config.yaml",
           Event.yamlEncode ⟨st.config.GitHubAPIURL, st.config.RepoOwner, st.config.RepoName,
             st.config.GitHubToken, st.config.ServerURL, s⟩]⟩ resp hresp
      rw [if_pos hcode] at ht
      rw [ht] at h
      simp only at h
      exact ⟨text, rfl, h, containsText_append _ _⟩

/-- C3 at a sample run: stored `abc123`, fetched `def456`, the merge endpoint
answers 500 with body `boom`. -/
theorem C3_merge_http_error_comes_after_the_write_witness :
    (main (exWorld (ok200 exBody) ⟨500, "500 Internal Server Error", "boom"⟩ none)
        (some (exYaml (exConfig "abc123")))).trace =
      [Event.clientDo (branchRequest (exConfig "abc123")),
       Event.logPrint "Detected new commit: def456. Initiating merge...",
       Event.osCreate "config.yaml",
       Event.yamlEncode (exConfig "def456"),
       Event.httpGet "http://deploy.example.org/merge-main",
       Event.logFatal "Failed to initiate merge: server responded with status 500: boom"] :=
  (C3_merge_http_error_comes_after_the_write
    (exWorld (ok200 exBody) ⟨500, "500 Internal Server Error", "boom"⟩ none)
    (some (exYaml (exConfig "abc123")))
    ⟨exConfig "abc123", some (exYaml (exConfig "abc123")), []⟩ "def456"
    ⟨500, "500 Internal Server Error", "boom"⟩
    (by rfl) (by rfl) (by decide)
    ⟨Event.httpGet "http://deploy.example.org/merge-main", by decide, rfl⟩
    (by rfl) (by decide)).elim (fun _ h => congrArg Outcome.trace h.2.1)

/-- C4: when the branch-info API answers with a status other than 200, the
fetcher returns an error whose message ends with the status text of the
answer, whatever the body; the run then ends with status 1 after the
branch-info request and one fatal line, with the file untouched, no write to
the config store and no request to the merge endpoint. -/
theorem C4_branch_http_error_stops_the_run (w : World) (file : Option String) (st : State)
    (resp : Response)
    (hload : loadConfig w (State.init file) = Except.ok st)
    (hnr : w.newRequestErr (branchURL st.config) = none)
    (hresp : w.clientDo (branchRequest st.config) = Except.ok resp)
    (hcode : resp.StatusCode ≠ 200) :
    (getLatestMainCommitSHA w st).1 =
      Except.error ("GitHub API responded with status: " ++ resp.Status) ∧
    containsText ("GitHub API responded with status: " ++ resp.Status) resp.Status ∧
    main w file =
      ⟨1, [Event.clientDo (branchRequest st.config),
           Event.logFatal ("Failed to get latest commit SHA: " ++
             ("GitHub API responded with status: " ++ resp.Status))], file⟩ ∧
    (∀ e ∈ (main w file).trace, e.isConfigWrite = false ∧ e.isMergeRequest = false) := by
  obtain ⟨text, hfile, -, hst⟩ := loadConfig_ok hload
  have hg : getLatestMainCommitSHA w st =
      (Except.error ("GitHub API responded with status: " ++ resp.Status),
        st.emit (Event.clientDo (branchRequest st.config))) := by
    unfold getLatestMainCommitSHA
    simp only [hnr, hresp, hcode, ne_eq, not_false_eq_true, if_true]
  have hm := (main_fetch_error hload (by rw [hg])).1
  rw [hg] at hm
  have htr : (st.emit (Event.clientDo (branchRequest st.config))).trace =
      [Event.clientDo (branchRequest st.config)] := by
    rw [hst]; rfl
  simp only [htr, List.singleton_append] at hm
  refine ⟨by rw [hg], containsText_append _ _, hm, ?_⟩
  rw [hm]
  intro e he
  simp only [List.mem_cons, List.mem_singleton, List.not_mem_nil, or_false] at he
  rcases he with rfl | rfl <;> exact ⟨rfl, rfl⟩

/-- C4 at a sample run: the branch-info API answers `404 Not Found`. -/
theorem C4_branch_http_error_stops_the_run_witness :
    main (exWorld ⟨404, "404 Not Found", exBody⟩ (ok200 "") none)
        (some (exYaml (exConfig "abc123"))) =
      ⟨1, [Event.clientDo (branchRequest (exConfig "abc123")),
           Event.logFatal
             "Failed to get latest commit SHA: GitHub API responded with status: 404 Not Found"],
        some (exYaml (exConfig "abc123"))⟩ :=
  (C4_branch_http_error_stops_the_run (exWorld ⟨404, "404 Not Found", exBody⟩ (ok200 "") none)
    (some (exYaml (exConfig "abc123")))
    ⟨exConfig "abc123", some (exYaml (exConfig "abc123")), []⟩
    ⟨404, "404 Not Found", exBody⟩ (by rfl) (by rfl) (by rfl) (by decide)).2.2.1

set_option maxRecDepth 100000

/-! ## Shape of the branch-info body -/

/-- C7: the fetcher hands at most one request to the HTTP client, and exactly
one once `http.NewRequest` accepts the URL: a GET of the API base URL followed
by `/repos/`, the owner, `/`, the repository name and `/branches/main`, the
fields inserted as they are, whose `Authorization` header is `token ` followed
by the stored token. The merge trigger makes the one call `http.Get` on the
server URL followed by `/merge-main`; the request of that call has no
`Authorization` header, and neither the call nor its answer depends on the
stored token. -/
theorem C7_shape_of_the_requests (w : World) (st : State) :
    ((getLatestMainCommitSHA w st).2.trace = st.trace ∨
      (getLatestMainCommitSHA w st).2.trace = st.trace ++
        [Event.clientDo ⟨"GET",
          st.config.GitHubAPIURL ++ "/repos/" ++ st.config.RepoOwner ++ "/" ++
            st.config.RepoName ++ "/branches/main",
          [("Authorization", "token " ++ st.config.GitHubToken)]⟩]) ∧
    (w.newRequestErr (st.config.GitHubAPIURL ++ "/repos/" ++ st.config.RepoOwner ++ "/" ++
        st.config.RepoName ++ "/branches/main") = none →
      (getLatestMainCommitSHA w st).2.trace = st.trace ++
        [Event.clientDo ⟨"GET",
          st.config.GitHubAPIURL ++ "/repos/" ++ st.config.RepoOwner ++ "/" ++
            st.config.RepoName ++ "/branches/main",
          [("Authorization", "token " ++ st.config.GitHubToken)]⟩]) ∧
    (branchRequest st.config).headerGet "Authorization" =
      some ("token " ++ st.config.GitHubToken) ∧
    (triggerMergeOnServer w st).2.trace =
      st.trace ++ [Event.httpGet (st.config.ServerURL ++ "/merge-main")] ∧
    (httpGetRequest (st.config.ServerURL ++ "/merge-main")).headerGet "Authorization" = none ∧
    (∀ tok : String,
      (triggerMergeOnServer w { st with config := { st.config with GitHubToken := tok } }).1 =
        (triggerMergeOnServer w st).1 ∧
      (triggerMergeOnServer w { st with config := { st.config with GitHubToken := tok } }).2.trace =
        (triggerMergeOnServer w st).2.trace) := by
  refine ⟨?_, ?_, rfl, ?_, rfl, ?_⟩
  · rcases fetch_state w st with h | h
    · left; rw [h]
    · right; rw [h]; rfl
  · intro hnr
    rw [fetch_sent hnr]; rfl
  · rw [trigger_state]; rfl
  · intro tok
    constructor
    · unfold triggerMergeOnServer
      simp only [mergeURL]
      cases w.httpGet (st.config.ServerURL ++ "/merge-main") with
      | error err => rfl
      | ok resp => by_cases h200 : resp.StatusCode = 200 <;> simp [h200]
    · rw [trigger_state, trigger_state]; rfl

/-- C8 fails as stated: the merge endpoint answers `201 Created`, a 2xx
status, and the merge trigger returns an error. -/
theorem C8_counterexample_status_201 :
    (exWorld (ok200 exBody) ⟨201, "201 Created", "merged"⟩ none).httpGet
        ((exConfig "def456").ServerURL ++ "/merge-main") =
      Except.ok ⟨201, "201 Created", "merged"⟩ ∧
    (triggerMergeOnServer (exWorld (ok200 exBody) ⟨201, "201 Created", "merged"⟩ none)
      ⟨exConfig "def456", some (exYaml (exConfig "def456")), []⟩).1 =
      some "server responded with status 201: merged" :=
  ⟨by rfl, by rfl⟩

/-- C8, as the code has it: on an answer of the merge endpoint the merge
trigger returns no error exactly when the status code is 200, whatever the
body; on every other status code, the other 2xx codes included, it returns the
HTTP error made of the status code and the body. -/
theorem C8_trigger_succeeds_exactly_on_200 (w : World) (st : State) (resp : Response)
    (hresp : w.httpGet (st.config.ServerURL ++ "/merge-main") = Except.ok resp) :
    ((triggerMergeOnServer w st).1 = none ↔ resp.StatusCode = 200) ∧
    (resp.StatusCode ≠ 200 →
      (triggerMergeOnServer w st).1 =
        some ("server responded with status " ++ toString resp.StatusCode ++ ": " ++
          resp.Body)) := by
  rw [trigger_result hresp]
  by_cases h200 : resp.StatusCode = 200
  · simp [h200]
  · simp [h200]

/-- C8 at a sample answer: status 200 with a non-empty body gives no error. -/
theorem C8_trigger_succeeds_exactly_on_200_witness :
    (triggerMergeOnServer (exWorld (ok200 exBody) (ok200 "merge refused") none)
      ⟨exConfig "def456", some (exYaml (exConfig "def456")), []⟩).1 = none :=
  (C8_trigger_succeeds_exactly_on_200 (exWorld (ok200 exBody) (ok200 "merge refused") none)
    ⟨exConfig "def456", some (exYaml (exConfig "def456")), []⟩ (ok200 "merge refused")
    (by rfl)).1.2 (by rfl)

/-! ## Exit status and order of the steps -/

/-- C6: the run exits with status 0 exactly when the config loads, the fetch
succeeds, and the fetched identifier equals the stored one or `saveConfig` and
the merge trigger both succeed on the updated record; every other run exits
with status 1. A load failure ends the run with one fatal line and nothing
else; a fetch failure ends it after at most the branch-info request; a write
failure ends it before any request to the merge endpoint; a merge-trigger
failure ends it with the fatal line right after the merge request. -/
theorem C6_exit_status_and_immediate_stop (w : World) (file : Option String) :
    ((main w file).exitCode = 0 ↔
      ∃ st s, loadConfig w (State.init file) = Except.ok st ∧
        (getLatestMainCommitSHA w st).1 = Except.ok s ∧
        (s = st.config.LastCommitSHA ∨
          ∃ st1 st2,
            st1.config = ⟨st.config.GitHubAPIURL, st.config.RepoOwner, st.config.RepoName,
              st.config.GitHubToken, st.config.ServerURL, s⟩ ∧
            saveConfig w st1 = Except.ok st2 ∧
            (triggerMergeOnServer w st2).1 = none)) ∧
    ((main w file).exitCode = 0 ∨ (main w file).exitCode = 1) ∧
    (∀ out, loadConfig w (State.init file) = Except.error out →
      ∃ msg, main w file = ⟨1, [Event.logFatal msg], file⟩) ∧
    (∀ st err, loadConfig w (State.init file) = Except.ok st →
      (getLatestMainCommitSHA w st).1 = Except.error err →
      main w file =
        ⟨1, [Event.logFatal ("Failed to get latest commit SHA: " ++ err)], file⟩ ∨
      main w file =
        ⟨1, [Event.clientDo (branchRequest st.config),
             Event.logFatal ("Failed to get latest commit SHA: " ++ err)], file⟩) ∧
    (∀ st s, loadConfig w (State.init file) = Except.ok st →
      (getLatestMainCommitSHA w st).1 = Except.ok s →
      s ≠ st.config.LastCommitSHA →
      (∀ err, w.createErr = some err →
        main w file =
          ⟨1, [Event.clientDo (branchRequest st.config),
               Event.logPrint ("Detected new commit: " ++ s ++ ". Initiating merge..."),
               Event.osCreate "config.yaml",
               Event.logFatal ("Failed to save config.yaml: " ++ err)], file⟩) ∧
      (∀ err left, w.createErr = none →
        w.yamlEncode ⟨st.config.GitHubAPIURL, st.config.RepoOwner, st.config.RepoName,
          st.config.GitHubToken, st.config.ServerURL, s⟩ = Except.error (err, left) →
        main w file =
          ⟨1, [Event.clientDo (branchRequest st.config),
               Event.logPrint ("Detected new commit: " ++ s ++ ". Initiating merge..."),
               Event.osCreate "config.yaml",
               Event.yamlEncode ⟨st.config.GitHubAPIURL, st.config.RepoOwner,
                 st.config.RepoName, st.config.GitHubToken, st.config.ServerURL, s⟩,
               Event.logFatal ("Failed to encode config.yaml: " ++ err)], some left⟩) ∧
      (∀ st1 st2 err,
        st1.config = ⟨st.config.GitHubAPIURL, st.config.RepoOwner, st.config.RepoName,
          st.config.GitHubToken, st.config.ServerURL, s⟩ →
        saveConfig w st1 = Except.ok st2 →
        (triggerMergeOnServer w st2).1 = some err →
        (main w file).exitCode = 1 ∧
        (main w file).trace =
          [Event.clientDo (branchRequest st.config),
           Event.logPrint ("Detected new commit: " ++ s ++ ". Initiating merge..."),
           Event.osCreate "config.yaml",
           Event.yamlEncode ⟨st.config.GitHubAPIURL, st.config.RepoOwner,
             st.config.RepoName, st.config.GitHubToken, st.config.ServerURL, s⟩,
           Event.httpGet (st.config.ServerURL ++ "/merge-main"),
           Event.logFatal ("Failed to initiate merge: " ++ err)])) := by
  -- the run after a successful load and fetch of a new identifier, by the answers of the world
  have key : ∀ st s, loadConfig w (State.init file) = Except.ok st →
      (getLatestMainCommitSHA w st).1 = Except.ok s → s ≠ st.config.LastCommitSHA →
      ∀ st1 st2, st1.config = ⟨st.config.GitHubAPIURL, st.config.RepoOwner,
          st.config.RepoName, st.config.GitHubToken, st.config.ServerURL, s⟩ →
        saveConfig w st1 = Except.ok st2 →
        ∃ text, main w file =
          match (triggerMergeOnServer w st2).1 with
          | some err =>
            ⟨1, [Event.clientDo (branchRequest st.config),
                 Event.logPrint ("Detected new commit: " ++ s ++ ". Initiating merge..."),
                 Event.osCreate "config.yaml",
                 Event.yamlEncode ⟨st.config.GitHubAPIURL, st.config.RepoOwner,
                   st.config.RepoName, st.config.GitHubToken, st.config.ServerURL, s⟩,
                 Event.httpGet (st.config.ServerURL ++ "/merge-main"),
                 Event.logFatal ("Failed to initiate merge: " ++ err)], some text⟩
          | none =>
            ⟨0, [Event.clientDo (branchRequest st.config),
                 Event.logPrint ("Detected new commit: " ++ s ++ ". Initiating merge..."),
                 Event.osCreate "config.yaml",
                 Event.yamlEncode ⟨st.config.GitHubAPIURL, st.config.RepoOwner,
                   st.config.RepoName, st.config.GitHubToken, st.config.ServerURL, s⟩,
                 Event.httpGet (st.config.ServerURL ++ "/merge-main"),
                 Event.logPrint "Merge request successfully initiated."], some text⟩ := by
    intro st s hload hfetch hne st1 st2 hcfg hsave
    obtain ⟨hc, text, he, hst2⟩ := saveConfig_ok hsave
    rw [hcfg] at he
    have h := main_fetched hload hfetch
    rw [if_neg hne] at h
    simp only [hc, he] at h
    have hcfg2 : st2.config = ⟨st.config.GitHubAPIURL, st.config.RepoOwner,
        st.config.RepoName, st.config.GitHubToken, st.config.ServerURL, s⟩ := by
      rw [hst2]; exact hcfg
    rw [trigger_result_config w hcfg2.symm] at h
    exact ⟨text, h⟩
  refine ⟨⟨?_, ?_⟩, ?_, ?_, ?_, ?_⟩
  · intro h0
    cases hload : loadConfig w (State.init file) with
    | error out =>
      obtain ⟨msg, hout⟩ := loadConfig_error hload
      rw [main_load_error hload, hout] at h0
      simp at h0
    | ok st =>
      cases hfetch : (getLatestMainCommitSHA w st).1 with
      | error err =>
        rw [(main_fetch_error hload hfetch).1] at h0
        simp at h0
      | ok s =>
        refine ⟨st, s, rfl, hfetch, ?_⟩
        by_cases heq : s = st.config.LastCommitSHA
        · exact Or.inl heq
        · right
          have h := main_fetched hload hfetch
          rw [if_neg heq] at h
          cases hc : w.createErr with
          | some err => rw [hc] at h; simp only at h; rw [h] at h0; simp at h0
          | none =>
            rw [hc] at h
            simp only at h
            cases he : w.yamlEncode ⟨st.config.GitHubAPIURL, st.config.RepoOwner,
                st.config.RepoName, st.config.GitHubToken, st.config.ServerURL, s⟩ with
            | error e =>
              obtain ⟨err, left⟩ := e
              rw [he] at h; simp only at h; rw [h] at h0; simp at h0
            | ok text =>
              have hsave := @saveConfig_ok_of w
                ⟨⟨st.config.GitHubAPIURL, st.config.RepoOwner,
                  st.config.RepoName, st.config.GitHubToken, st.config.ServerURL, s⟩,
                  file, []⟩ text hc he
              refine ⟨_, _, rfl, hsave, ?_⟩
              obtain ⟨text2, hm⟩ := key st s hload hfetch heq _ _ rfl hsave
              rw [hm] at h0
              revert h0
              cases triggerMergeOnServer w _ |>.1 with
              | none => intro _; rfl
              | some err => intro h0; simp at h0
  · rintro ⟨st, s, hload, hfetch, hcase⟩
    rcases hcase with heq | ⟨st1, st2, hcfg, hsave, htrig⟩
    · have h := main_fetched hload hfetch
      rw [if_pos heq] at h
      rw [h]
    · by_cases heq : s = st.config.LastCommitSHA
      · have h := main_fetched hload hfetch
        rw [if_pos heq] at h
        rw [h]
      · obtain ⟨text, hm⟩ := key st s hload hfetch heq st1 st2 hcfg hsave
        rw [htrig] at hm
        rw [hm]
  · cases hload : loadConfig w (State.init file) with
    | error out =>
      obtain ⟨msg, hout⟩ := loadConfig_error hload
      rw [main_load_error hload, hout]
      exact Or.inr rfl
    | ok st =>
      cases hfetch : (getLatestMainCommitSHA w st).1 with
      | error err =>
        rw [(main_fetch_error hload hfetch).1]
        exact Or.inr rfl
      | ok s =>
        rw [main_fetched hload hfetch]
        split
        · exact Or.inl rfl
        · split
          · exact Or.inr rfl
          · split
            · exact Or.inr rfl
            · split
              · exact Or.inr rfl
              · exact Or.inl rfl
  · intro out hload
    obtain ⟨msg, hout⟩ := loadConfig_error hload
    exact ⟨msg, by rw [main_load_error hload, hout]⟩
  · intro st err hload hfetch
    obtain ⟨hm, htr⟩ := main_fetch_error hload hfetch
    rcases htr with htr | htr
    · left; rw [hm, htr]; rfl
    · right; rw [hm, htr]; rfl
  · intro st s hload hfetch hne
    have h := main_fetched hload hfetch
    rw [if_neg hne] at h
    refine ⟨?_, ?_, ?_⟩
    · intro err hc
      rw [hc] at h
      exact h
    · intro err left hc he
      rw [hc] at h
      simp only [he] at h
      exact h
    · intro st1 st2 err hcfg hsave htrig
      obtain ⟨text, hm⟩ := key st s hload hfetch hne st1 st2 hcfg hsave
      rw [htrig] at hm
      rw [hm]
      exact ⟨rfl, rfl⟩

/-- C6 at the sample run of the specification: stored `abc123`, fetched
`def456`, the write succeeds and the merge endpoint answers 200, so the run
exits with status 0. -/
theorem C6_exit_status_and_immediate_stop_witness :
    (main (exWorld (ok200 exBody) (ok200 "") none)
      (some (exYaml (exConfig "abc123")))).exitCode = 0 :=
  (C6_exit_status_and_immediate_stop (exWorld (ok200 exBody) (ok200 "") none)
    (some (exYaml (exConfig "abc123")))).1.2
    ⟨⟨exConfig "abc123", some (exYaml (exConfig "abc123")), []⟩, "def456", by rfl, by rfl,
      Or.inr ⟨⟨exConfig "def456", none, []⟩,
        ⟨exConfig "def456", some (exYaml (exConfig "def456")),
          [Event.osCreate "config.yaml", Event.yamlEncode (exConfig "def456")]⟩,
        by rfl, by rfl, by rfl⟩⟩

/-- C9 fails as stated for a write failure: in the sample run `os.Create`
fails, the run ends with the fatal line of `saveConfig`, and the request to
the branch-info API is already in the trace. -/
theorem C9_counterexample_write_failure_after_fetch :
    main (exWorld (ok200 exBody) (ok200 "") (some "open config.yaml: permission denied"))
        (some (exYaml (exConfig "abc123"))) =
      ⟨1, [Event.clientDo (branchRequest (exConfig "abc123")),
           Event.logPrint "Detected new commit: def456. Initiating merge...",
           Event.osCreate "config.yaml",
           Event.logFatal "Failed to save config.yaml: open config.yaml: permission denied"],
        some (exYaml (exConfig "abc123"))⟩ ∧
    (Event.clientDo (branchRequest (exConfig "abc123"))).isBranchRequest = true :=
  ⟨by decide, by decide⟩

/-- C9, as the code has it: a run that ends with a config load error (file
missing or malformed) has sent no request to the branch-info API and none to
the merge endpoint; a run that ends with a config write failure (create or
encode) has sent its branch-info request before the failure and has sent no
request to the merge endpoint. -/
theorem C9_config_errors_and_network_activity (w : World) (file : Option String) :
    (∀ out, loadConfig w (State.init file) = Except.error out →
      main w file = out ∧ out.exitCode = 1 ∧
      ∀ e ∈ out.trace, e.isBranchRequest = false ∧ e.isMergeRequest = false) ∧
    (∀ st s st1 out, loadConfig w (State.init file) = Except.ok st →
      (getLatestMainCommitSHA w st).1 = Except.ok s →
      s ≠ st.config.LastCommitSHA →
      st1.config = ⟨st.config.GitHubAPIURL, st.config.RepoOwner, st.config.RepoName,
        st.config.GitHubToken, st.config.ServerURL, s⟩ →
      saveConfig w st1 = Except.error out →
      (main w file).exitCode = 1 ∧
      (main w file).trace.filter Event.isBranchRequest =
        [Event.clientDo (branchRequest st.config)] ∧
      (∀ e ∈ (main w file).trace, e.isMergeRequest = false) ∧
      ∃ pre msg, (main w file).trace =
        Event.clientDo (branchRequest st.config) :: pre ++ [Event.logFatal msg]) := by
  constructor
  · intro out hload
    obtain ⟨msg, hout⟩ := loadConfig_error hload
    refine ⟨main_load_error hload, by rw [hout], ?_⟩
    rw [hout]
    intro e he
    simp only [List.mem_singleton] at he
    subst he
    exact ⟨rfl, rfl⟩
  · intro st s st1 out hload hfetch hne hcfg hsave
    have h := main_fetched hload hfetch
    rw [if_neg hne] at h
    rcases saveConfig_error hsave with ⟨err, hc⟩ | ⟨hc, err, left, he⟩
    · rw [hc] at h
      simp only at h
      rw [h]
      refine ⟨rfl, rfl, ?_,
        [Event.logPrint ("Detected new commit: " ++ s ++ ". Initiating merge..."),
         Event.osCreate "config.yaml"], _, rfl⟩
      intro e he
      simp only [List.mem_cons, List.mem_singleton, List.not_mem_nil, or_false] at he
      rcases he with rfl | rfl | rfl | rfl <;> rfl
    · rw [hcfg] at he
      rw [hc] at h
      simp only [he] at h
      rw [h]
      refine ⟨rfl, rfl, ?_,
        [Event.logPrint ("Detected new commit: " ++ s ++ ". Initiating merge..."),
         Event.osCreate "config.yaml",
         Event.yamlEncode ⟨st.config.GitHubAPIURL, st.config.RepoOwner, st.config.RepoName,
           st.config.GitHubToken, st.config.ServerURL, s⟩], _, rfl⟩
      intro e he
      simp only [List.mem_cons, List.mem_singleton, List.not_mem_nil, or_false] at he
      rcases he with rfl | rfl | rfl | rfl | rfl <;> rfl

/-- C9 at a sample run: `config.yaml` cannot be opened, and the trace holds
the fatal line only. -/
theorem C9_config_errors_and_network_activity_witness :
    main (exWorld (ok200 exBody) (ok200 "") none) none =
      ⟨1, [Event.logFatal
        "Failed to load config.yaml: open config.yaml: no such file or directory"], none⟩ :=
  ((C9_config_errors_and_network_activity (exWorld (ok200 exBody) (ok200 "") none) none).1
    ⟨1, [Event.logFatal
      "Failed to load config.yaml: open config.yaml: no such file or directory"], none⟩
    (by rfl)).1

/-! ## Running again -/

/-- C10: when a first run fetches `s`, performs a config write and that write
succeeds, the file holds the encoding of the record with commit identifier
`s`, whatever the merge endpoint did. A second run that reads that record back
from the file and fetches `s` again makes its branch-info request, prints one
log line and exits 0: no write to the config store and no request to the merge
endpoint, so a merge whose trigger failed is not tried again. -/
theorem C10_second_run_is_a_no_op (w1 w2 : World) (file : Option String) (st : State)
    (s text : String)
    (hload : loadConfig w1 (State.init file) = Except.ok st)
    (hfetch : (getLatestMainCommitSHA w1 st).1 = Except.ok s)
    (hwrote : ∃ e ∈ (main w1 file).trace, e.isConfigWrite = true)
    (hcreate : w1.createErr = none)
    (henc : w1.yamlEncode ⟨st.config.GitHubAPIURL, st.config.RepoOwner, st.config.RepoName,
      st.config.GitHubToken, st.config.ServerURL, s⟩ = Except.ok text)
    (hback : w2.yamlDecode text = Except.ok ⟨st.config.GitHubAPIURL, st.config.RepoOwner,
      st.config.RepoName, st.config.GitHubToken, st.config.ServerURL, s⟩)
    (hfetch2 : (getLatestMainCommitSHA w2
      ⟨⟨st.config.GitHubAPIURL, st.config.RepoOwner, st.config.RepoName,
        st.config.GitHubToken, st.config.ServerURL, s⟩, some text, []⟩).1 = Except.ok s) :
    (main w1 file).file = some text ∧
    main w2 (main w1 file).file =
      ⟨0, [Event.clientDo (branchRequest ⟨st.config.GitHubAPIURL, st.config.RepoOwner,
             st.config.RepoName, st.config.GitHubToken, st.config.ServerURL, s⟩),
           Event.logPrint "No updates in 'main' branch."], some text⟩ ∧
    (∀ e ∈ (main w2 (main w1 file).file).trace,
      e.isConfigWrite = false ∧ e.isMergeRequest = false) := by
  have h := main_fetched hload hfetch
  have hne : s ≠ st.config.LastCommitSHA := by
    intro heq
    rw [if_pos heq] at h
    obtain ⟨e, he, hw⟩ := hwrote
    rw [h] at he
    simp only [List.mem_cons, List.mem_singleton, List.not_mem_nil, or_false] at he
    rcases he with rfl | rfl <;> simp [Event.isConfigWrite] at hw
  rw [if_neg hne] at h
  simp only [hcreate, henc] at h
  have hfile : (main w1 file).file = some text := by
    rw [h]; split <;> rfl
  have hload2 : loadConfig w2 (State.init (some text)) =
      Except.ok ⟨⟨st.config.GitHubAPIURL, st.config.RepoOwner, st.config.RepoName,
        st.config.GitHubToken, st.config.ServerURL, s⟩, some text, []⟩ := by
    unfold loadConfig State.init
    simp only [hback]
  have h2 := main_fetched hload2 hfetch2
  rw [if_pos rfl] at h2
  rw [hfile, h2]
  refine ⟨rfl, rfl, ?_⟩
  intro e he
  simp only [List.mem_cons, List.mem_singleton, List.not_mem_nil, or_false] at he
  rcases he with rfl | rfl <;> exact ⟨rfl, rfl⟩

/-- C10 at a sample pair of runs: stored `abc123`, fetched `def456`, the merge
endpoint answers 500 in the first run; the second run is a no-op. -/
theorem C10_second_run_is_a_no_op_witness :
    (main (exWorld (ok200 exBody) ⟨500, "500 Internal Server Error", "boom"⟩ none)
      (some (exYaml (exConfig "abc123")))).exitCode = 1 ∧
    main (exWorld (ok200 exBody) (ok200 "") none)
      (main (exWorld (ok200 exBody) ⟨500, "500 Internal Server Error", "boom"⟩ none)
        (some (exYaml (exConfig "abc123")))).file =
      ⟨0, [Event.clientDo (branchRequest (exConfig "def456")),
           Event.logPrint "No updates in 'main' branch."],
        some (exYaml (exConfig "def456"))⟩ :=
  ⟨by decide,
   (C10_second_run_is_a_no_op
    (exWorld (ok200 exBody) ⟨500, "500 Internal Server Error", "boom"⟩ none)
    (exWorld (ok200 exBody) (ok200 "") none)
    (some (exYaml (exConfig "abc123")))
    ⟨exConfig "abc123", some (exYaml (exConfig "abc123")), []⟩ "def456"
    (exYaml (exConfig "def456")) (by rfl) (by rfl)
    ⟨Event.osCreate "config.yaml", by decide, rfl⟩ (by rfl) (by rfl) (by rfl) (by rfl)).2.1⟩

end UpdateChecker
